import Mathlib

/-!
Shallow embedding of the protocol-adaptation layer of the `datenlord_s3`
gateway: the PutObject request extractor and output serializers
(`src/ops/put_object.rs`) and the service router (`src/service/mod.rs`).

Streams are modelled as finite lists of elements; byte chunks are lists of
bytes; the helper components that live outside the provided sources
(`OrderedHeaders`, `Multipart`, the `assign_from_*` and `set_optional_header`
utilities) are modelled from the specification where noted.
-/

set_option autoImplicit false

namespace DatenlordS3

/-- A byte chunk of a streaming body. -/
abbrev Chunk := List Nat

/-- The transport-level body: a finite sequence of elements, each either a
byte chunk or a transport error (represented by its display string), mirroring
`hyper::Body` as a stream of `Result<Bytes, hyper::Error>`. -/
abbrev Body := List (Except String Chunk)

/-- The kind of an `std::io::Error`; only `Other` is used by this layer. -/
inductive IOErrorKind where
  | other
  deriving DecidableEq, Repr

/-- An `std::io::Error`: a kind plus a human-readable message. -/
structure IOErr where
  kind : IOErrorKind
  msg : String
  deriving DecidableEq, Repr

/-- The normalized byte stream (`crate::dto::ByteStream`): each element is a
byte chunk or an I/O error. -/
abbrev ByteStream := List (Except IOErr Chunk)

/-- Function `transform_stream` (src/ops/put_object.rs:30): maps each transport error
into a single generic I/O error kind with a descriptive message, and passes
chunks through unchanged. -/
def transform_stream (body : Body) : ByteStream :=
  body.map (fun tryChunk =>
    match tryChunk with
    | .ok chunk => .ok chunk
    | .error e => .error ⟨IOErrorKind.other, "Error obtaining chunk: " ++ e⟩)

/-- ASCII lowercasing of a string, character by character (`Char.toLower`
only affects A-Z, matching Rust's `make_ascii_lowercase` and hyper's header
normalization); defined by structural recursion over the character list so
it evaluates inside the kernel. -/
def lowerStr (s : String) : String :=
  ⟨s.data.map Char.toLower⟩

/-- Rust `str::starts_with`, as a character-list prefix test (all names
involved are ASCII, so char-wise and byte-wise prefixes coincide). -/
def strStartsWith (s pre : String) : Bool :=
  pre.data.isPrefixOf s.data

/-- Rust `str::split_at(n).1` / dropping the first `n` characters (ASCII, so
char count and byte count coincide). -/
def strDrop (s : String) (n : Nat) : String :=
  ⟨s.data.drop n⟩

/-- Raw wire headers: (name, value) pairs in wire order, names as sent. -/
abbrev RawHeaders := List (String × String)

/-- Modelled from the spec: the Ordered Header View (spec 2, 3, 4.1) is an
insertion-ordered sequence of (name, value) pairs with case-insensitive
names; the HTTP layer (hyper) normalizes header names to ASCII lowercase
before this view is built, which is what makes lookup and prefix scans
case-insensitive. -/
def OrderedHeaders.fromWire (hs : RawHeaders) : List (String × String) :=
  hs.map (fun p => (lowerStr p.1, p.2))

/-- Modelled from the spec: `get(name)` of the Ordered Header View /
`Request::get_header_str` — case-insensitive lookup returning the first
match (spec 4.1). Queries are given in lowercase. -/
def getHeaderStr (hs : List (String × String)) (name : String) : Option String :=
  (hs.find? (fun p => p.1 = name)).map (fun p => p.2)

/-- Modelled from the spec: `Request::assign_from_optional_header` — look up
the header case-insensitively and, if present, copy its string value verbatim
into the field; absence leaves the field unchanged (spec 4.4 step 3). -/
def assignFromOptionalHeader (hs : List (String × String)) (name : String)
    (field : Option String) : Option String :=
  match getHeaderStr hs name with
  | some v => some v
  | none => field

/-- Lookup in the association-list model of `HashMap<String, String>`. -/
def mapLookup (m : List (String × String)) (k : String) : Option String :=
  (m.find? (fun p => p.1 = k)).map (fun p => p.2)

/-- Insert in the association-list model of `HashMap<String, String>`:
bind the key to the new value, replacing any existing binding. -/
def mapInsert (m : List (String × String)) (k v : String) : List (String × String) :=
  (k, v) :: m.filter (fun p => p.1 ≠ k)

/-- One step of the metadata scan in `extract` (src/ops/put_object.rs:153):
if the (already lowercase) header name starts with `x-amz-meta-`, strip the
prefix; a non-empty remainder is inserted as a metadata key. -/
def mdStep (md : List (String × String)) (p : String × String) :
    List (String × String) :=
  if strStartsWith p.1 "x-amz-meta-" then
    let metaKey := strDrop p.1 11
    if metaKey = "" then md else mapInsert md metaKey p.2
  else md

/-- The metadata scan of `extract` (src/ops/put_object.rs:152-161) over the
ordered header view. -/
def extractHeaderMetadata (l : List (String × String)) : List (String × String) :=
  l.foldl mdStep []

/-- One step of the metadata scan in `extract_from_multipart`
(src/ops/put_object.rs:54-63): the field name is ASCII-lowercased first
(`make_ascii_lowercase`), then the same prefix-stripping rule applies. -/
def multipartMdStep (md : List (String × String)) (p : String × String) :
    List (String × String) :=
  let nm := lowerStr p.1
  if strStartsWith nm "x-amz-meta-" then
    let metaKey := strDrop nm 11
    if metaKey = "" then md else mapInsert md metaKey p.2
  else md

/-- The metadata scan of `extract_from_multipart` over the form fields. -/
def extractMultipartMetadata (fields : List (String × String)) :
    List (String × String) :=
  fields.foldl multipartMdStep []

/-- Modelled from the spec: the Multipart Payload's file part — a filename
plus the (still raw, transport-level) byte stream of the file content
(spec 3, 4.3). -/
structure FilePart where
  filename : String
  stream : Body
  deriving Repr

/-- Modelled from the spec: a parsed Multipart Payload — an ordered sequence
of (field-name, field-value) pairs, in wire order, plus exactly one file part
(spec 3, 4.3). -/
structure Multipart where
  fields : List (String × String)
  file : FilePart
  deriving Repr

/-- Modelled from the spec: `Multipart::assign_from_optional_field` — copy
the value of the first form field with the given name (case-sensitive exact
match, spec 4.5) into the field; absence leaves the field unchanged. -/
def assignFromOptionalField (fields : List (String × String)) (name : String)
    (field : Option String) : Option String :=
  match (fields.find? (fun p => p.1 = name)).map (fun p => p.2) with
  | some v => some v
  | none => field

/-- Structure `rusoto_s3::PutObjectRequest`, restricted to the fields this layer
touches; every optional attribute defaults to unset, mirroring
`PutObjectRequest::default()`. -/
structure PutObjectRequest where
  bucket : String := ""
  key : String := ""
  body : Option ByteStream := none
  acl : Option String := none
  cache_control : Option String := none
  content_disposition : Option String := none
  content_encoding : Option String := none
  content_language : Option String := none
  content_length : Option Int := none
  content_md5 : Option String := none
  content_type : Option String := none
  expires : Option String := none
  grant_full_control : Option String := none
  grant_read : Option String := none
  grant_read_acp : Option String := none
  grant_write_acp : Option String := none
  metadata : Option (List (String × String)) := none
  object_lock_legal_hold_status : Option String := none
  object_lock_mode : Option String := none
  object_lock_retain_until_date : Option String := none
  request_payer : Option String := none
  server_side_encryption : Option String := none
  sse_customer_algorithm : Option String := none
  sse_customer_key : Option String := none
  sse_customer_key_md5 : Option String := none
  ssekms_encryption_context : Option String := none
  ssekms_key_id : Option String := none
  storage_class : Option String := none
  tagging : Option String := none
  website_redirect_location : Option String := none
  deriving Repr

/-- Digits-only decimal value; fails on an empty digit list or a non-digit. -/
def digitsVal (cs : List Char) : Option Nat :=
  if cs.isEmpty then none
  else
    cs.foldl
      (fun acc c =>
        match acc with
        | none => none
        | some n => if c.isDigit then some (n * 10 + (c.toNat - 48)) else none)
      (some 0)

/-- Rust `i64::from_str`: optional leading sign, one or more ASCII digits,
value within the 64-bit signed range. -/
def parseI64 (s : String) : Option Int :=
  match s.toList with
  | '+' :: rest =>
    (digitsVal rest).bind (fun n =>
      if n ≤ 9223372036854775807 then some (Int.ofNat n) else none)
  | '-' :: rest =>
    (digitsVal rest).bind (fun n =>
      if n ≤ 9223372036854775808 then some (-(Int.ofNat n)) else none)
  | cs =>
    (digitsVal cs).bind (fun n =>
      if n ≤ 9223372036854775807 then some (Int.ofNat n) else none)

/-- Function `extract_from_multipart` (src/ops/put_object.rs:43-77): override the
overlapping optional fields from form fields when present, rebuild metadata
from form field names (replacing the header-sourced mapping only when
non-empty), and move the file part's stream, wrapped by the byte-stream
adapter, into the request body. (String-typed form values never fail to
parse, so the fallible Rust signature is infallible here.) -/
def extract_from_multipart (input : PutObjectRequest) (multipart : Multipart) :
    PutObjectRequest :=
  let input := { input with
    acl := assignFromOptionalField multipart.fields "acl" input.acl
    content_type := assignFromOptionalField multipart.fields "content-type" input.content_type
    expires := assignFromOptionalField multipart.fields "expires" input.expires
    tagging := assignFromOptionalField multipart.fields "tagging" input.tagging
    storage_class := assignFromOptionalField multipart.fields "x-amz-storage-class" input.storage_class }
  let metadata := extractMultipartMetadata multipart.fields
  let input := if metadata.isEmpty then input else { input with metadata := some metadata }
  { input with body := some (transform_stream multipart.file.stream) }

/-- The optional-header assignments of `extract`
(src/ops/put_object.rs:99-150): every S3-defined optional header relevant to
the operation is looked up case-insensitively and, when present, copied
verbatim into the matching field. Each assignment touches a distinct field,
so they are written as one combined record update. -/
def extractHeaderFields (input : PutObjectRequest)
    (headers : List (String × String)) : PutObjectRequest :=
  { input with
    acl := assignFromOptionalHeader headers "x-amz-acl" input.acl
    cache_control := assignFromOptionalHeader headers "cache-control" input.cache_control
    content_disposition := assignFromOptionalHeader headers "content-disposition" input.content_disposition
    content_encoding := assignFromOptionalHeader headers "content-encoding" input.content_encoding
    content_language := assignFromOptionalHeader headers "content-language" input.content_language
    content_md5 := assignFromOptionalHeader headers "content-md5" input.content_md5
    content_type := assignFromOptionalHeader headers "content-type" input.content_type
    expires := assignFromOptionalHeader headers "expires" input.expires
    grant_full_control := assignFromOptionalHeader headers "x-amz-grant-full-control" input.grant_full_control
    grant_read := assignFromOptionalHeader headers "x-amz-grant-read" input.grant_read
    grant_read_acp := assignFromOptionalHeader headers "x-amz-grant-read-acp" input.grant_read_acp
    grant_write_acp := assignFromOptionalHeader headers "x-amz-grant-write-acp" input.grant_write_acp
    server_side_encryption := assignFromOptionalHeader headers "x-amz-server-side-encryption" input.server_side_encryption
    storage_class := assignFromOptionalHeader headers "x-amz-storage-class" input.storage_class
    website_redirect_location := assignFromOptionalHeader headers "x-amz-website-redirect-location" input.website_redirect_location
    sse_customer_algorithm := assignFromOptionalHeader headers "x-amz-server-side-encryption-customer-algorithm" input.sse_customer_algorithm
    sse_customer_key := assignFromOptionalHeader headers "x-amz-server-side-encryption-customer-key" input.sse_customer_key
    sse_customer_key_md5 := assignFromOptionalHeader headers "x-amz-server-side-encryption-customer-key-md5" input.sse_customer_key_md5
    ssekms_key_id := assignFromOptionalHeader headers "x-amz-server-side-encryption-aws-kms-key-id" input.ssekms_key_id
    ssekms_encryption_context := assignFromOptionalHeader headers "x-amz-server-side-encryption-context" input.ssekms_encryption_context
    request_payer := assignFromOptionalHeader headers "x-amz-request-payer" input.request_payer
    tagging := assignFromOptionalHeader headers "x-amz-tagging" input.tagging
    object_lock_mode := assignFromOptionalHeader headers "x-amz-object-lock-mode" input.object_lock_mode
    object_lock_retain_until_date := assignFromOptionalHeader headers "x-amz-object-lock-retain-until-date" input.object_lock_retain_until_date
    object_lock_legal_hold_status := assignFromOptionalHeader headers "x-amz-object-lock-legal-hold" input.object_lock_legal_hold_status }

/-- The remainder of `extract` after the `Content-Length` step
(src/ops/put_object.rs:99-169): optional-header assignments, the
`x-amz-meta-*` scan (the metadata field stays unset when the mapping is
empty), then the body assignment — exactly one of the two mutually exclusive
paths. -/
def extractRest (body : Body) (multipart : Option Multipart)
    (headers : List (String × String)) (input : PutObjectRequest) :
    PutObjectRequest :=
  let input := extractHeaderFields input headers
  let md := extractHeaderMetadata headers
  let input := if md.isEmpty then input else { input with metadata := some md }
  match multipart with
  | none => { input with body := some (transform_stream body) }
  | some m => extract_from_multipart input m

/-- Function `extract` (src/ops/put_object.rs:80-172): seed bucket/key, parse
`Content-Length` when present (a non-integer value aborts extraction with an
error, before anything else), then run the rest of the extraction. The
`headers` argument is the ordered header view (lowercase names, wire
order). -/
def extract (body : Body) (bucket : String) (key : String)
    (multipart : Option Multipart) (headers : List (String × String)) :
    Except String PutObjectRequest :=
  let input : PutObjectRequest := { bucket := bucket, key := key, body := none }
  match getHeaderStr headers "content-length" with
  | none => .ok (extractRest body multipart headers input)
  | some s =>
    match parseI64 s with
    | some n =>
      .ok (extractRest body multipart headers { input with content_length := some n })
    | none => .error "invalid digit found in string"

/-- An HTTP response restricted to what this layer's serializers produce:
a status (always 200 OK from `wrap_output`) and ordered headers. -/
structure Response where
  status : Nat := 200
  headers : List (String × String) := []
  deriving DecidableEq, Repr

/-- Modelled from the spec: `Response::set_optional_header` — set the header
when the value is present, do nothing when it is absent (spec 4.6: omit
absent fields entirely, no placeholder headers). -/
def setOptionalHeader (res : Response) (name : String) (value : Option String) :
    Response :=
  match value with
  | none => res
  | some v => { res with headers := res.headers ++ [(name, v)] }

/-- Structure `rusoto_s3::PutObjectOutput`, restricted to the fields the serializer
reads; all optional. -/
structure PutObjectOutput where
  expiration : Option String := none
  e_tag : Option String := none
  server_side_encryption : Option String := none
  version_id : Option String := none
  sse_customer_algorithm : Option String := none
  sse_customer_key_md5 : Option String := none
  ssekms_key_id : Option String := none
  ssekms_encryption_context : Option String := none
  request_charged : Option String := none
  deriving DecidableEq, Repr

/-- Serializer `impl S3Output for PutObjectOutput` (src/ops/put_object.rs:174-204):
build a 200 response and conditionally set one header per present field, in
source order. Header names are in hyper's lowercase normal form. -/
def PutObjectOutput.tryIntoResponse (o : PutObjectOutput) : Response :=
  let res : Response := {}
  let res := setOptionalHeader res "x-amz-expiration" o.expiration
  let res := setOptionalHeader res "etag" o.e_tag
  let res := setOptionalHeader res "x-amz-server-side-encryption" o.server_side_encryption
  let res := setOptionalHeader res "x-amz-version-id" o.version_id
  let res := setOptionalHeader res "x-amz-server-side-encryption-customer-algorithm" o.sse_customer_algorithm
  let res := setOptionalHeader res "x-amz-server-side-encryption-customer-key-md5" o.sse_customer_key_md5
  let res := setOptionalHeader res "x-amz-server-side-encryption-aws-kms-key-id" o.ssekms_key_id
  let res := setOptionalHeader res "x-amz-server-side-encryption-context" o.ssekms_encryption_context
  let res := setOptionalHeader res "x-amz-request-charged" o.request_charged
  res

/-- The (name, stored field) pairs the PutObject serializer may emit, in
source order: the specification-side description of the emitted header set. -/
def putObjectOutputHeaderSpec (o : PutObjectOutput) : List (String × Option String) :=
  [("x-amz-expiration", o.expiration),
   ("etag", o.e_tag),
   ("x-amz-server-side-encryption", o.server_side_encryption),
   ("x-amz-version-id", o.version_id),
   ("x-amz-server-side-encryption-customer-algorithm", o.sse_customer_algorithm),
   ("x-amz-server-side-encryption-customer-key-md5", o.sse_customer_key_md5),
   ("x-amz-server-side-encryption-aws-kms-key-id", o.ssekms_key_id),
   ("x-amz-server-side-encryption-context", o.ssekms_encryption_context),
   ("x-amz-request-charged", o.request_charged)]

/-- Type `rusoto_s3::PutObjectError`: the PutObject operation defines no error
variants, so this type is uninhabited — witnessed in the source by
an empty match on `self` (src/ops/put_object.rs:206-210). -/
inductive PutObjectError where

/-- Serializer `impl S3Output for PutObjectError` (src/ops/put_object.rs:206-210): the
empty match — defined by the impossibility of its argument. -/
def PutObjectError.tryIntoResponse : PutObjectError → Response :=
  fun e => nomatch e

/-- Type `hyper::Method`, restricted to the standard named methods plus an
extension catch-all. -/
inductive Method where
  | GET
  | POST
  | PUT
  | DELETE
  | HEAD
  | PATCH
  | OPTIONS
  | CONNECT
  | TRACE
  | extensionMethod (s : String)
  deriving DecidableEq, Repr

/-- The observable outcome of `S3Service::handle` in the shown source: a
routing error (`anyhow::bail!("Not supported")`) for an unsupported method,
or a panic from the `todo!()` body of the matched per-method handler. No
branch constructs a response, invokes an extractor, or calls the storage
backend. -/
inductive HandleOutcome where
  | routingError (msg : String)
  | unimplementedHandler (handlerName : String)
  deriving DecidableEq, Repr

/-- Router `S3Service::handle` (src/service/mod.rs:88-97): dispatch on the HTTP
method; the five supported methods reach their (unimplemented) handlers, any
other method fails with "Not supported". -/
def S3Service.handle (m : Method) : HandleOutcome :=
  match m with
  | .GET => .unimplementedHandler "handle_get"
  | .POST => .unimplementedHandler "handle_post"
  | .PUT => .unimplementedHandler "handle_put"
  | .DELETE => .unimplementedHandler "handle_delete"
  | .HEAD => .unimplementedHandler "handle_head"
  | _ => .routingError "Not supported"

/-- The specification-side "last matching header wins" function over an
already-normalized header list: the value of the last pair whose name starts
with `x-amz-meta-` and whose remainder after the prefix is `k`. -/
def lastMetaValue (l : List (String × String)) (k : String) : Option String :=
  l.foldl
    (fun acc p =>
      if strStartsWith p.1 "x-amz-meta-" ∧ strDrop p.1 11 = k then some p.2
      else acc)
    none

/-- The specification-side "last matching header wins" function over raw wire
headers: prefix matching is case-insensitive and the metadata key is the
lower-cased remainder. -/
def lastMetaValueRaw (hs : RawHeaders) (k : String) : Option String :=
  hs.foldl
    (fun acc p =>
      if strStartsWith (lowerStr p.1) "x-amz-meta-" ∧ strDrop (lowerStr p.1) 11 = k then
        some p.2
      else acc)
    none

/-- Lookup in a request's metadata field: unset metadata has no entries. -/
def metadataLookup (r : PutObjectRequest) (k : String) : Option String :=
  match r.metadata with
  | none => none
  | some md => mapLookup md k

/-- The header list contributed by one optional output field: empty when the
field is absent, a single header when present. -/
def optHeader (name : String) (value : Option String) : List (String × String) :=
  match value with
  | none => []
  | some v => [(name, v)]

/-! Helper lemmas about the association-list map model and the metadata
scan. -/

theorem mapLookup_mapInsert_self (m : List (String × String)) (k v : String) :
    mapLookup (mapInsert m k v) k = some v := by
  simp [mapLookup, mapInsert]

theorem find?_filter_ne (m : List (String × String)) (k k' : String) (h : k' ≠ k) :
    (m.filter (fun p => p.1 ≠ k)).find? (fun p => p.1 = k') =
      m.find? (fun p => p.1 = k') := by
  rw [List.find?_filter]
  congr 1
  funext a
  by_cases ha : a.1 = k'
  · have hak : ¬ a.1 = k := by rw [ha]; exact h
    simp [ha, hak, h]
  · simp [ha]

theorem mapLookup_mapInsert_ne (m : List (String × String)) (k v k' : String)
    (h : k' ≠ k) : mapLookup (mapInsert m k v) k' = mapLookup m k' := by
  have hk : ¬ k = k' := fun e => h e.symm
  simp only [mapLookup, mapInsert, List.find?_cons, hk]
  rw [find?_filter_ne m k k' h]
  simp [hk]

theorem mapLookup_mdStep (acc : List (String × String)) (p : String × String)
    (k : String) (hk : k ≠ "") :
    mapLookup (mdStep acc p) k =
      if strStartsWith p.1 "x-amz-meta-" ∧ strDrop p.1 11 = k then some p.2
      else mapLookup acc k := by
  unfold mdStep
  by_cases hs : strStartsWith p.1 "x-amz-meta-"
  · by_cases hk2 : strDrop p.1 11 = ""
    · have hne : ¬ "" = k := fun e => hk e.symm
      simp [hs, hk2, hne]
    · by_cases hkk : strDrop p.1 11 = k
      · subst hkk
        simp [hs, hk2, mapLookup_mapInsert_self]
      · simp [hs, hk2, hkk, mapLookup_mapInsert_ne acc (strDrop p.1 11) p.2 k
          (fun e => hkk e.symm)]
  · simp [hs]

theorem mapLookup_foldl_mdStep (l : List (String × String))
    (acc : List (String × String)) (k : String) (hk : k ≠ "") :
    mapLookup (l.foldl mdStep acc) k =
      l.foldl
        (fun a p =>
          if strStartsWith p.1 "x-amz-meta-" ∧ strDrop p.1 11 = k then some p.2
          else a)
        (mapLookup acc k) := by
  induction l generalizing acc with
  | nil => rfl
  | cons p t ih =>
    simp only [List.foldl_cons]
    rw [ih, mapLookup_mdStep acc p k hk]

theorem mapLookup_extractHeaderMetadata (l : List (String × String)) (k : String)
    (hk : k ≠ "") : mapLookup (extractHeaderMetadata l) k = lastMetaValue l k := by
  unfold extractHeaderMetadata lastMetaValue
  rw [mapLookup_foldl_mdStep l [] k hk]
  rfl

theorem lastMetaValue_fromWire (hs : RawHeaders) (k : String) :
    lastMetaValue (OrderedHeaders.fromWire hs) k = lastMetaValueRaw hs k := by
  simp [lastMetaValue, lastMetaValueRaw, OrderedHeaders.fromWire, List.foldl_map]

theorem mapLookup_foldl_mdStep_emptyKey (l : List (String × String))
    (acc : List (String × String)) (h : mapLookup acc "" = none) :
    mapLookup (l.foldl mdStep acc) "" = none := by
  induction l generalizing acc with
  | nil => exact h
  | cons p t ih =>
    simp only [List.foldl_cons]
    refine ih (mdStep acc p) ?_
    unfold mdStep
    by_cases hs : strStartsWith p.1 "x-amz-meta-"
    · by_cases hk2 : strDrop p.1 11 = ""
      · simp [hs, hk2, h]
      · simp only [hs, if_true]
        rw [if_neg hk2]
        rw [mapLookup_mapInsert_ne acc (strDrop p.1 11) p.2 "" (fun e => hk2 e.symm)]
        exact h
    · simp [hs, h]

theorem foldl_mdStep_no_match (l : List (String × String))
    (acc : List (String × String))
    (h : ∀ p ∈ l, strStartsWith p.1 "x-amz-meta-" = false) :
    l.foldl mdStep acc = acc := by
  induction l generalizing acc with
  | nil => rfl
  | cons p t ih =>
    have hp := h p (List.mem_cons_self p t)
    simp only [List.foldl_cons]
    rw [show mdStep acc p = acc by unfold mdStep; simp [hp]]
    exact ih acc (fun q hq => h q (List.mem_cons_of_mem p hq))

/-! Projection lemmas for `extractRest` and the success cases of
`extract`. -/

theorem extractRest_bucket (body : Body) (mp : Option Multipart)
    (headers : List (String × String)) (input : PutObjectRequest) :
    (extractRest body mp headers input).bucket = input.bucket := by
  unfold extractRest extract_from_multipart extractHeaderFields
  cases mp <;> dsimp only <;> split <;> (try split) <;> rfl

theorem extractRest_key (body : Body) (mp : Option Multipart)
    (headers : List (String × String)) (input : PutObjectRequest) :
    (extractRest body mp headers input).key = input.key := by
  unfold extractRest extract_from_multipart extractHeaderFields
  cases mp <;> dsimp only <;> split <;> (try split) <;> rfl

theorem extractRest_content_length (body : Body) (mp : Option Multipart)
    (headers : List (String × String)) (input : PutObjectRequest) :
    (extractRest body mp headers input).content_length = input.content_length := by
  unfold extractRest extract_from_multipart extractHeaderFields
  cases mp <;> dsimp only <;> split <;> (try split) <;> rfl

theorem extractRest_body_none (body : Body) (headers : List (String × String))
    (input : PutObjectRequest) :
    (extractRest body none headers input).body = some (transform_stream body) := rfl

theorem extractRest_body_some (body : Body) (m : Multipart)
    (headers : List (String × String)) (input : PutObjectRequest) :
    (extractRest body (some m) headers input).body =
      some (transform_stream m.file.stream) := rfl

theorem extractRest_metadata_none (body : Body) (headers : List (String × String))
    (input : PutObjectRequest) :
    (extractRest body none headers input).metadata =
      if (extractHeaderMetadata headers).isEmpty then input.metadata
      else some (extractHeaderMetadata headers) := by
  unfold extractRest extractHeaderFields
  dsimp only
  split <;> rfl

theorem extractRest_metadata_some (body : Body) (m : Multipart)
    (headers : List (String × String)) (input : PutObjectRequest) :
    (extractRest body (some m) headers input).metadata =
      if (extractMultipartMetadata m.fields).isEmpty then
        (if (extractHeaderMetadata headers).isEmpty then input.metadata
         else some (extractHeaderMetadata headers))
      else some (extractMultipartMetadata m.fields) := by
  unfold extractRest extract_from_multipart extractHeaderFields
  dsimp only
  split <;> split <;> rfl

theorem extractRest_acl_some (body : Body) (m : Multipart)
    (headers : List (String × String)) (input : PutObjectRequest) :
    (extractRest body (some m) headers input).acl =
      assignFromOptionalField m.fields "acl"
        (assignFromOptionalHeader headers "x-amz-acl" input.acl) := by
  unfold extractRest extract_from_multipart extractHeaderFields
  dsimp only
  split <;> split <;> rfl

theorem extractRest_content_type_some (body : Body) (m : Multipart)
    (headers : List (String × String)) (input : PutObjectRequest) :
    (extractRest body (some m) headers input).content_type =
      assignFromOptionalField m.fields "content-type"
        (assignFromOptionalHeader headers "content-type" input.content_type) := by
  unfold extractRest extract_from_multipart extractHeaderFields
  dsimp only
  split <;> split <;> rfl

theorem extractRest_expires_some (body : Body) (m : Multipart)
    (headers : List (String × String)) (input : PutObjectRequest) :
    (extractRest body (some m) headers input).expires =
      assignFromOptionalField m.fields "expires"
        (assignFromOptionalHeader headers "expires" input.expires) := by
  unfold extractRest extract_from_multipart extractHeaderFields
  dsimp only
  split <;> split <;> rfl

theorem extractRest_tagging_some (body : Body) (m : Multipart)
    (headers : List (String × String)) (input : PutObjectRequest) :
    (extractRest body (some m) headers input).tagging =
      assignFromOptionalField m.fields "tagging"
        (assignFromOptionalHeader headers "x-amz-tagging" input.tagging) := by
  unfold extractRest extract_from_multipart extractHeaderFields
  dsimp only
  split <;> split <;> rfl

theorem extractRest_storage_class_some (body : Body) (m : Multipart)
    (headers : List (String × String)) (input : PutObjectRequest) :
    (extractRest body (some m) headers input).storage_class =
      assignFromOptionalField m.fields "x-amz-storage-class"
        (assignFromOptionalHeader headers "x-amz-storage-class" input.storage_class) := by
  unfold extractRest extract_from_multipart extractHeaderFields
  dsimp only
  split <;> split <;> rfl

theorem extract_ok_cases (body : Body) (bucket key : String)
    (mp : Option Multipart) (headers : List (String × String))
    (r : PutObjectRequest) (h : extract body bucket key mp headers = .ok r) :
    ∃ cl : Option Int,
      r = extractRest body mp headers
            { bucket := bucket, key := key, body := none, content_length := cl } := by
  unfold extract at h
  dsimp only at h
  split at h
  · simp only [Except.ok.injEq] at h
    exact ⟨none, h.symm⟩
  · split at h
    · simp only [Except.ok.injEq] at h
      exact ⟨some _, h.symm⟩
    · cases h

theorem assignFromOptionalHeader_none_field (hs : List (String × String))
    (name : String) :
    assignFromOptionalHeader hs name none = getHeaderStr hs name := by
  unfold assignFromOptionalHeader
  cases getHeaderStr hs name <;> rfl

theorem extract_ok_of_cl_none (body : Body) (bucket key : String)
    (mp : Option Multipart) (headers : List (String × String))
    (h : getHeaderStr headers "content-length" = none) :
    extract body bucket key mp headers =
      .ok (extractRest body mp headers
            { bucket := bucket, key := key, body := none }) := by
  unfold extract
  rw [h]

theorem extract_ok_of_cl_parse (body : Body) (bucket key : String)
    (mp : Option Multipart) (headers : List (String × String)) (s : String)
    (n : Int) (h : getHeaderStr headers "content-length" = some s)
    (hp : parseI64 s = some n) :
    extract body bucket key mp headers =
      .ok (extractRest body mp headers
            { bucket := bucket, key := key, body := none,
              content_length := some n }) := by
  unfold extract
  rw [h]
  dsimp only
  rw [hp]

theorem extract_error_of_cl_bad (body : Body) (bucket key : String)
    (mp : Option Multipart) (headers : List (String × String)) (s : String)
    (h : getHeaderStr headers "content-length" = some s)
    (hp : parseI64 s = none) :
    extract body bucket key mp headers = .error "invalid digit found in string" := by
  unfold extract
  rw [h]
  dsimp only
  rw [hp]

theorem setOptionalHeader_headers_eq (res : Response) (name : String)
    (value : Option String) :
    (setOptionalHeader res name value).headers = res.headers ++ optHeader name value := by
  cases value with
  | none => simp [setOptionalHeader, optHeader]
  | some v => simp [setOptionalHeader, optHeader]

theorem filterMap_eq_optHeader_append (l : List (String × Option String)) :
    l.filterMap (fun p => p.2.map (fun v => (p.1, v))) =
      l.foldr (fun p acc => optHeader p.1 p.2 ++ acc) [] := by
  induction l with
  | nil => rfl
  | cons p t ih =>
    cases hv : p.2 with
    | none => simp [List.filterMap_cons, hv, optHeader, ih]
    | some v => simp [List.filterMap_cons, hv, optHeader, ih]

/-! Claim theorems. -/

/-- C4: for every successful PutObject extraction, exactly one of the two
body paths populates the request body — with no multipart payload the body
is the raw transport body wrapped by the byte-stream adapter, with a
multipart payload it is the multipart file part's stream (wrapped by the
same adapter); the two paths are mutually exclusive and exhaustive. -/
theorem putObject_body_paths (body : Body) (bucket key : String)
    (mp : Option Multipart) (headers : List (String × String))
    (r : PutObjectRequest) (h : extract body bucket key mp headers = .ok r) :
    ((mp = none ∧ r.body = some (transform_stream body)) ∨
      (∃ m, mp = some m ∧ r.body = some (transform_stream m.file.stream))) ∧
    ¬ (mp = none ∧ ∃ m, mp = some m) := by
  obtain ⟨cl, rfl⟩ := extract_ok_cases body bucket key mp headers r h
  constructor
  · cases mp with
    | none => exact Or.inl ⟨rfl, extractRest_body_none body headers _⟩
    | some m => exact Or.inr ⟨m, rfl, extractRest_body_some body m headers _⟩
  · rintro ⟨h1, m, h2⟩
    rw [h1] at h2
    cases h2

/-- C4 witness: a concrete direct-body extraction takes the raw-body path. -/
theorem putObject_body_paths_witness :
    ∃ r, extract [Except.ok [104, 105]] "b" "k" none [] = .ok r ∧
      r.body = some (transform_stream [Except.ok [104, 105]]) := by
  refine ⟨_, rfl, ?_⟩
  have h := putObject_body_paths [Except.ok [104, 105]] "b" "k" none [] _ rfl
  rcases h.1 with ⟨_, hb⟩ | ⟨m, hm, _⟩
  · exact hb
  · cases hm

/-- C9: every successful PutObject extraction returns a request whose bucket
and key equal the supplied path components and whose body is populated. -/
theorem putObject_bucket_key_body (body : Body) (bucket key : String)
    (mp : Option Multipart) (headers : List (String × String))
    (r : PutObjectRequest) (h : extract body bucket key mp headers = .ok r) :
    r.bucket = bucket ∧ r.key = key ∧ ∃ s, r.body = some s := by
  obtain ⟨cl, rfl⟩ := extract_ok_cases body bucket key mp headers r h
  refine ⟨extractRest_bucket body mp headers _, extractRest_key body mp headers _, ?_⟩
  cases mp with
  | none => exact ⟨_, extractRest_body_none body headers _⟩
  | some m => exact ⟨_, extractRest_body_some body m headers _⟩

/-- C9 witness: a concrete extraction carries its bucket, key and a body. -/
theorem putObject_bucket_key_body_witness :
    ∃ r, extract [] "bucket1" "key1" none [] = .ok r ∧
      r.bucket = "bucket1" ∧ r.key = "key1" ∧ ∃ s, r.body = some s := by
  refine ⟨_, rfl, ?_⟩
  exact putObject_bucket_key_body [] "bucket1" "key1" none [] _ rfl

/-- C6: the PutObject error type has no variants, so no value of it exists
and the error-serialization branch is vacuously exhaustive: every
hypothetical error value serializes to every response. -/
theorem putObjectError_unreachable :
    IsEmpty PutObjectError ∧
      ∀ (e : PutObjectError) (res : Response), PutObjectError.tryIntoResponse e = res :=
  ⟨⟨fun e => nomatch e⟩, fun e => nomatch e⟩

/-- C7: any HTTP method other than GET, POST, PUT, DELETE, HEAD makes the
router's handle return the "Not supported" routing error; no per-method
handler (the only code paths that could reach an extractor or the storage
backend) is entered. -/
theorem router_unsupported_method (m : Method)
    (h : m ≠ Method.GET ∧ m ≠ Method.POST ∧ m ≠ Method.PUT ∧
      m ≠ Method.DELETE ∧ m ≠ Method.HEAD) :
    S3Service.handle m = HandleOutcome.routingError "Not supported" := by
  obtain ⟨h1, h2, h3, h4, h5⟩ := h
  cases m <;>
    first
      | rfl
      | exact absurd rfl h1
      | exact absurd rfl h2
      | exact absurd rfl h3
      | exact absurd rfl h4
      | exact absurd rfl h5

/-- C7 witness: PATCH is rejected with the routing error. -/
theorem router_unsupported_method_witness :
    (Method.PATCH ≠ Method.GET ∧ Method.PATCH ≠ Method.POST ∧
      Method.PATCH ≠ Method.PUT ∧ Method.PATCH ≠ Method.DELETE ∧
      Method.PATCH ≠ Method.HEAD) ∧
    S3Service.handle Method.PATCH = HandleOutcome.routingError "Not supported" :=
  ⟨⟨by decide, by decide, by decide, by decide, by decide⟩,
    router_unsupported_method Method.PATCH
      ⟨by decide, by decide, by decide, by decide, by decide⟩⟩

/-- C8: the byte-stream adapter is a one-to-one, element-wise map — it
preserves the stream length (no retry, no buffering), passes each successful
chunk through unchanged, and maps each error element to the single generic
I/O error kind with a human-readable description of the transport error. -/
theorem transform_stream_spec (body : Body) :
    (transform_stream body).length = body.length ∧
    (∀ (i : Nat) (chunk : Chunk), body[i]? = some (Except.ok chunk) →
      (transform_stream body)[i]? = some (Except.ok chunk)) ∧
    (∀ (i : Nat) (e : String), body[i]? = some (Except.error e) →
      (transform_stream body)[i]? =
        some (Except.error ⟨IOErrorKind.other, "Error obtaining chunk: " ++ e⟩)) := by
  refine ⟨by simp [transform_stream], ?_, ?_⟩
  · intro i chunk hi
    simp [transform_stream, List.getElem?_map, hi]
  · intro i e hi
    simp [transform_stream, List.getElem?_map, hi]

/-- C8 witness: on a concrete stream, the ok chunk passes through and the
error element becomes the generic I/O error. -/
theorem transform_stream_spec_witness :
    ([Except.ok [104], Except.error "boom"] : Body)[1]? = some (Except.error "boom") ∧
    (transform_stream [Except.ok [104], Except.error "boom"])[1]? =
      some (Except.error ⟨IOErrorKind.other, "Error obtaining chunk: boom"⟩) :=
  ⟨rfl, (transform_stream_spec [Except.ok [104], Except.error "boom"]).2.2 1 "boom" rfl⟩

/-- C10: each of the five supported HTTP methods reaches its per-method
handler, whose body is `todo!()` — the request panics there and never reaches
an extractor, the storage backend, or a serializer (no branch of handle
produces a response). -/
theorem router_supported_methods_unimplemented :
    S3Service.handle Method.GET = HandleOutcome.unimplementedHandler "handle_get" ∧
    S3Service.handle Method.POST = HandleOutcome.unimplementedHandler "handle_post" ∧
    S3Service.handle Method.PUT = HandleOutcome.unimplementedHandler "handle_put" ∧
    S3Service.handle Method.DELETE = HandleOutcome.unimplementedHandler "handle_delete" ∧
    S3Service.handle Method.HEAD = HandleOutcome.unimplementedHandler "handle_head" :=
  ⟨rfl, rfl, rfl, rfl, rfl⟩

/-- C5: PutObject output serialization emits exactly one response header per
present optional output field, carrying the stored value, and no header at
all for an absent field — the emitted header list is precisely the
filter-map of the (name, field) specification list. -/
theorem putObject_output_headers (o : PutObjectOutput) :
    (PutObjectOutput.tryIntoResponse o).headers =
      (putObjectOutputHeaderSpec o).filterMap (fun p => p.2.map (fun v => (p.1, v))) := by
  rw [filterMap_eq_optHeader_append]
  unfold PutObjectOutput.tryIntoResponse putObjectOutputHeaderSpec
  simp [setOptionalHeader_headers_eq, List.append_assoc]

/-- C3: the content-length field is unset when the header is absent, holds
the parsed 64-bit signed integer when the value parses, and extraction fails
with an error when it does not. -/
theorem putObject_content_length_spec (body : Body) (bucket key : String)
    (mp : Option Multipart) (headers : List (String × String)) :
    (getHeaderStr headers "content-length" = none →
      ∃ r, extract body bucket key mp headers = .ok r ∧ r.content_length = none) ∧
    (∀ (s : String) (n : Int), getHeaderStr headers "content-length" = some s →
      parseI64 s = some n →
      ∃ r, extract body bucket key mp headers = .ok r ∧ r.content_length = some n) ∧
    (∀ s : String, getHeaderStr headers "content-length" = some s →
      parseI64 s = none →
      ∃ e, extract body bucket key mp headers = .error e) := by
  refine ⟨?_, ?_, ?_⟩
  · intro h
    refine ⟨_, extract_ok_of_cl_none body bucket key mp headers h, ?_⟩
    rw [extractRest_content_length]
  · intro s n h hp
    refine ⟨_, extract_ok_of_cl_parse body bucket key mp headers s n h hp, ?_⟩
    rw [extractRest_content_length]
  · intro s h hp
    exact ⟨_, extract_error_of_cl_bad body bucket key mp headers s h hp⟩

/-- C3 witness: header "42" round-trips to content-length 42. -/
theorem putObject_content_length_witness :
    getHeaderStr (OrderedHeaders.fromWire [("Content-Length", "42")])
        "content-length" = some "42" ∧
    parseI64 "42" = some 42 ∧
    ∃ r, extract [] "b" "k" none
        (OrderedHeaders.fromWire [("Content-Length", "42")]) = .ok r ∧
      r.content_length = some 42 :=
  ⟨rfl, rfl,
    (putObject_content_length_spec [] "b" "k" none
        (OrderedHeaders.fromWire [("Content-Length", "42")])).2.1 "42" 42 rfl rfl⟩

/-- C2: for header-sourced PutObject metadata, the lookup of every non-empty
key equals the value of the last wire-order header whose lower-cased name is
the prefix `x-amz-meta-` followed by that key; the empty key is always
dropped; and when no header carries the prefix, the metadata field is unset
rather than an empty mapping. -/
theorem putObject_header_metadata_spec (hs : RawHeaders) (body : Body)
    (bucket key : String) (r : PutObjectRequest)
    (h : extract body bucket key none (OrderedHeaders.fromWire hs) = .ok r) :
    (∀ k : String, k ≠ "" → metadataLookup r k = lastMetaValueRaw hs k) ∧
    metadataLookup r "" = none ∧
    ((∀ p ∈ hs, strStartsWith (lowerStr p.1) "x-amz-meta-" = false) →
      r.metadata = none) := by
  obtain ⟨cl, rfl⟩ := extract_ok_cases _ _ _ _ _ _ h
  have hmeta := extractRest_metadata_none body (OrderedHeaders.fromWire hs)
    { bucket := bucket, key := key, body := none, content_length := cl }
  refine ⟨?_, ?_, ?_⟩
  · intro k hk
    unfold metadataLookup
    rw [hmeta]
    by_cases he : (extractHeaderMetadata (OrderedHeaders.fromWire hs)).isEmpty
    · rw [if_pos he]
      dsimp only
      rw [← lastMetaValue_fromWire, ← mapLookup_extractHeaderMetadata _ _ hk]
      rw [List.isEmpty_iff.mp he]
      rfl
    · rw [if_neg he]
      dsimp only
      rw [mapLookup_extractHeaderMetadata _ _ hk, lastMetaValue_fromWire]
  · unfold metadataLookup
    rw [hmeta]
    by_cases he : (extractHeaderMetadata (OrderedHeaders.fromWire hs)).isEmpty
    · rw [if_pos he]
    · rw [if_neg he]
      dsimp only
      exact mapLookup_foldl_mdStep_emptyKey _ [] rfl
  · intro hnone
    rw [hmeta]
    have hempty : extractHeaderMetadata (OrderedHeaders.fromWire hs) = [] := by
      refine foldl_mdStep_no_match _ [] ?_
      intro p hp
      obtain ⟨q, hq, rfl⟩ := List.mem_map.mp hp
      exact hnone q hq
    rw [hempty]
    rfl

/-- C2 witness: mixed-case and empty-key metadata headers on a concrete
request. -/
theorem putObject_header_metadata_witness :
    ∃ r, extract [] "b" "k" none (OrderedHeaders.fromWire
        [("x-amz-meta-Foo", "1"), ("x-amz-meta-bar", "2"), ("x-amz-meta-", "x")]) =
          .ok r ∧
      metadataLookup r "foo" = some "1" ∧ metadataLookup r "bar" = some "2" ∧
      metadataLookup r "" = none := by
  refine ⟨_, rfl, ?_, ?_, ?_⟩
  · rw [(putObject_header_metadata_spec
        [("x-amz-meta-Foo", "1"), ("x-amz-meta-bar", "2"), ("x-amz-meta-", "x")]
        [] "b" "k" _ rfl).1 "foo" (by decide)]
    rfl
  · rw [(putObject_header_metadata_spec
        [("x-amz-meta-Foo", "1"), ("x-amz-meta-bar", "2"), ("x-amz-meta-", "x")]
        [] "b" "k" _ rfl).1 "bar" (by decide)]
    rfl
  · exact (putObject_header_metadata_spec
      [("x-amz-meta-Foo", "1"), ("x-amz-meta-bar", "2"), ("x-amz-meta-", "x")]
      [] "b" "k" _ rfl).2.1

/-- C1 (counterexample): with a multipart payload present but supplying no
`acl` form field, the header-sourced `x-amz-acl` value does appear in the
extracted request — contradicting the claim that header-sourced values for
the overlapping fields never appear in the multipart path. -/
theorem putObject_multipart_header_leak :
    (extract [] "b" "k"
        (some { fields := [], file := { filename := "f", stream := [] } })
        (OrderedHeaders.fromWire [("x-amz-acl", "private")])).toOption.map
      (fun r => r.acl) = some (some "private") := rfl

/-- C1 (amended): in the multipart path each overlapping field takes the
form-supplied value when the form supplies it and otherwise retains the
header-sourced value, and the metadata mapping is replaced by the
form-derived mapping only when that mapping is non-empty, otherwise the
header-derived mapping (or unset) remains. -/
theorem putObject_multipart_override (body : Body) (bucket key : String)
    (m : Multipart) (headers : List (String × String)) (r : PutObjectRequest)
    (h : extract body bucket key (some m) headers = .ok r) :
    r.acl = assignFromOptionalField m.fields "acl"
        (getHeaderStr headers "x-amz-acl") ∧
    r.content_type = assignFromOptionalField m.fields "content-type"
        (getHeaderStr headers "content-type") ∧
    r.expires = assignFromOptionalField m.fields "expires"
        (getHeaderStr headers "expires") ∧
    r.tagging = assignFromOptionalField m.fields "tagging"
        (getHeaderStr headers "x-amz-tagging") ∧
    r.storage_class = assignFromOptionalField m.fields "x-amz-storage-class"
        (getHeaderStr headers "x-amz-storage-class") ∧
    r.metadata = (if (extractMultipartMetadata m.fields).isEmpty then
        (if (extractHeaderMetadata headers).isEmpty then none
         else some (extractHeaderMetadata headers))
      else some (extractMultipartMetadata m.fields)) := by
  obtain ⟨cl, rfl⟩ := extract_ok_cases _ _ _ _ _ _ h
  refine ⟨?_, ?_, ?_, ?_, ?_, ?_⟩
  · rw [extractRest_acl_some]
    dsimp only
    rw [assignFromOptionalHeader_none_field]
  · rw [extractRest_content_type_some]
    dsimp only
    rw [assignFromOptionalHeader_none_field]
  · rw [extractRest_expires_some]
    dsimp only
    rw [assignFromOptionalHeader_none_field]
  · rw [extractRest_tagging_some]
    dsimp only
    rw [assignFromOptionalHeader_none_field]
  · rw [extractRest_storage_class_some]
    dsimp only
    rw [assignFromOptionalHeader_none_field]
  · rw [extractRest_metadata_some]

/-- C1 (amended) witness: a form-supplied `acl` field overrides the
header-sourced value. -/
theorem putObject_multipart_override_witness :
    ∃ r, extract [] "b" "k"
        (some { fields := [("acl", "public-read")],
                file := { filename := "f", stream := [] } })
        (OrderedHeaders.fromWire [("x-amz-acl", "private")]) = .ok r ∧
      r.acl = some "public-read" := by
  refine ⟨_, rfl, ?_⟩
  rw [(putObject_multipart_override [] "b" "k"
      { fields := [("acl", "public-read")],
        file := { filename := "f", stream := [] } }
      (OrderedHeaders.fromWire [("x-amz-acl", "private")]) _ rfl).1]
  rfl

end DatenlordS3
